import Mathlib

/-!
Verification development for the NeuraX_KPR repository: a dual-camera
contact-tracing system with a React frontend.  The frontend sources
(auth context, monitoring page) are embedded directly from the
JavaScript code.  The fusion / risk-accumulation / alerting engine
(`monitor_contacts.py`, `collision_detector.py`, `alert_system.py`) is
not part of the available sources (only the README describing it is),
so it is modelled from the specification; those definitions carry a
doc comment starting `Modelled from the spec:`.
-/

namespace NeuraX

/-! ### Frontend auth model (AuthContext.jsx)

`ROLE_PERMISSIONS` maps each role name to its list of permission
strings; `hasPermission` is `permissions.includes(permission)` where
`permissions` is `ROLE_PERMISSIONS[user.role] || []`. -/

/-- The `ROLE_PERMISSIONS` table of AuthContext.jsx: each known role
maps to its permission list, any other role to the empty list
(the `|| []` fallback). -/
def ROLE_PERMISSIONS (role : String) : List String :=
  if role = "admin" then
    ["dashboard", "registered_persons", "unknown_persons",
     "alerts", "user_management", "monitoring"]
  else if role = "ehr_user" then
    ["dashboard", "registered_persons", "mdr_management", "alerts"]
  else if role = "officer" then
    ["dashboard", "register_person", "registered_persons", "unknown_persons"]
  else []

/-- The `hasPermission` function of AuthContext.jsx for a user with
the given role: membership test in the role's permission list. -/
def hasPermission (role perm : String) : Bool :=
  (ROLE_PERMISSIONS role).contains perm

/-- MDRManagement.jsx renders the Add-Pathogen button only when
`hasPermission('pathogen_management')` holds. -/
def showAddPathogenButton (role : String) : Bool :=
  hasPermission role "pathogen_management"

/-- MDRManagement.jsx renders the pathogen-types tab only when
`hasPermission('pathogen_management')` holds. -/
def showPathogensTab (role : String) : Bool :=
  hasPermission role "pathogen_management"

/-! ### MonitoringPage model (MonitoringPage.jsx)

`startMonitoring` in video mode first checks that both a front and a
side video are selected, then resolves each selection to a stored
server path via `videos.find(...)`; only if both resolve does it call
the monitoring start API.  JavaScript truthiness makes an absent or
empty `path` falsy. -/

inductive InputMode where
  | video
  | webcam
deriving DecidableEq, Repr

/-- One entry of the `videos` list fetched from the server:
`{filename, path, video_type}`, where `path` may be absent. -/
structure VideoEntry where
  filename : String
  path : Option String
  video_type : String
deriving DecidableEq, Repr

/-- The session-related state of the monitoring page that
`startMonitoring` mutates only after a successful API call. -/
structure SessionState where
  isRunning : Bool
  sessionId : Option String
  status : String
deriving DecidableEq, Repr

/-- The slice of MonitoringPage component state that drives
`startMonitoring` and `canStart`. -/
structure PageState where
  inputMode : InputMode
  videos : List VideoEntry
  selectedFrontVideo : Option String
  selectedSideVideo : Option String
  frontCamIndex : Nat
  sideCamIndex : Nat
  session : SessionState
deriving DecidableEq, Repr

/-- JavaScript truthiness of `video?.path`: an absent entry, an absent
path, and an empty-string path are all falsy. -/
def truthyPath (v : Option VideoEntry) : Option String :=
  match v with
  | none => none
  | some e =>
    match e.path with
    | none => none
    | some p => if p = "" then none else some p

/-- Outcome of one `startMonitoring` invocation: either an error toast
with an early return (before the start API), or a call to the start
API with the assembled config. -/
inductive StartOutcome where
  | errorNoSelection
  | errorNoPath
  | callVideoApi (frontPath sidePath : String)
  | callWebcamApi (frontIdx sideIdx : Nat)
deriving DecidableEq, Repr

/-- The `startMonitoring` handler of MonitoringPage.jsx up to the API
call: in video mode it errors out unless both videos are selected and
both resolve to stored server paths; session state is returned
unchanged on the error paths. -/
def startMonitoring (st : PageState) : StartOutcome × SessionState :=
  match st.inputMode with
  | InputMode.video =>
    match st.selectedFrontVideo, st.selectedSideVideo with
    | some f, some s =>
      let frontVideo := st.videos.find? (fun v => v.filename = f)
      let sideVideo := st.videos.find? (fun v => v.filename = s)
      match truthyPath frontVideo, truthyPath sideVideo with
      | some fp, some sp => (StartOutcome.callVideoApi fp sp, st.session)
      | _, _ => (StartOutcome.errorNoPath, st.session)
    | _, _ => (StartOutcome.errorNoSelection, st.session)
  | InputMode.webcam =>
    (StartOutcome.callWebcamApi st.frontCamIndex st.sideCamIndex, st.session)

/-- The `canStart` guard of MonitoringPage.jsx: in video mode both a
front and a side video must be selected; in webcam mode it is always
true. -/
def canStart (st : PageState) : Bool :=
  match st.inputMode with
  | InputMode.video =>
    st.selectedFrontVideo.isSome && st.selectedSideVideo.isSome
  | InputMode.webcam => true

/-! ### PairKey canonicalization and the fused-state table

The engine sources are not available; these are modelled from the
spec, section 3 (data model) and 4.3 (tie-break/ordering). -/

/-- Modelled from the spec: a PairKey is an unordered pair of person
labels, stored canonically ordered (`A ≤ B` under the total order on
strings) so the key is the same regardless of detection order.
The engine source (`monitor_contacts.py`) is missing from the
available files. -/
def pairKey (a b : String) : String × String :=
  if a ≤ b then (a, b) else (b, a)

/-- Modelled from the spec: the fused-state table keyed by PairKey;
`upsertPair` is the idempotent upsert - it creates an entry only when
none exists for the key, so simultaneous creation from both cameras
cannot double-create. -/
def upsertPair {F : Type} (tbl : List ((String × String) × F))
    (k : String × String) (init : F) : List ((String × String) × F) :=
  if tbl.any (fun e => e.1 = k) then tbl else (k, init) :: tbl

/-- Modelled from the spec: `fuse A B` accesses (creating on first
use) the fused state object for the unordered pair of labels, going
through PairKey canonicalization. -/
def fuse {F : Type} (tbl : List ((String × String) × F))
    (a b : String) (init : F) : List ((String × String) × F) :=
  upsertPair tbl (pairKey a b) init

/-- Modelled from the spec: lookup of the fused state object a call
`fuse(A, B)` references. -/
def fusedLookup {F : Type} (tbl : List ((String × String) × F))
    (a b : String) : Option F :=
  (tbl.find? (fun e => e.1 = pairKey a b)).map Prod.snd

/-! ### Geometry scorer

Modelled from the spec, section 4.1 (`collision_detector.py` is
missing from the available files): IoU blended with a normalized
inverse center-to-center distance, clamped bucket thresholds; pure,
total, and zero for malformed boxes. -/

/-- Modelled from the spec: a bounding box `{x, y, width, height}` in
a shared coordinate frame, with rational coordinates. -/
structure BoundingBox where
  x : ℚ
  y : ℚ
  w : ℚ
  h : ℚ
deriving DecidableEq, Repr

/-- Area of a box. -/
def area (b : BoundingBox) : ℚ := b.w * b.h

/-- A malformed (degenerate, zero-or-negative-area) box. -/
def degenerate (b : BoundingBox) : Bool := decide (b.w ≤ 0) || decide (b.h ≤ 0)

/-- Width of the intersection of two boxes (0 when disjoint). -/
def interW (a b : BoundingBox) : ℚ :=
  max 0 (min (a.x + a.w) (b.x + b.w) - max a.x b.x)

/-- Height of the intersection of two boxes (0 when disjoint). -/
def interH (a b : BoundingBox) : ℚ :=
  max 0 (min (a.y + a.h) (b.y + b.h) - max a.y b.y)

/-- Intersection area of two boxes. -/
def interArea (a b : BoundingBox) : ℚ := interW a b * interH a b

/-- Union area of two boxes. -/
def unionArea (a b : BoundingBox) : ℚ := area a + area b - interArea a b

/-- Modelled from the spec: Intersection-over-Union of two boxes. -/
def iou (a b : BoundingBox) : ℚ :=
  if unionArea a b ≤ 0 then 0 else interArea a b / unionArea a b

/-- Squared center-to-center distance of two boxes. -/
def centerDist2 (a b : BoundingBox) : ℚ :=
  ((a.x + a.w / 2) - (b.x + b.w / 2)) ^ 2
    + ((a.y + a.h / 2) - (b.y + b.h / 2)) ^ 2

/-- Modelled from the spec: normalized inverse center-to-center
distance, 1 at coincident centers and falling to 0 at the configured
distance scale `D`. -/
def proximity (D : ℚ) (a b : BoundingBox) : ℚ :=
  max 0 (1 - centerDist2 a b / (D * D))

/-- Modelled from the spec: the geometry score - a convex blend
(tunable weight `wIoU`) of IoU and normalized inverse center
distance; malformed (zero-area) boxes score 0. -/
def geometryScore (wIoU D : ℚ) (a b : BoundingBox) : ℚ :=
  if degenerate a || degenerate b then 0
  else wIoU * iou a b + (1 - wIoU) * proximity D a b

/-- Modelled from the spec: the ordered set of severity buckets. -/
inductive Severity where
  | SAFE
  | LOW
  | MEDIUM
  | HIGH
  | CRITICAL
deriving DecidableEq, Repr

/-- Modelled from the spec: bucketing of a geometry score by the
tunable cut points `t1 ≤ t2 ≤ t3 ≤ t4`. -/
def severityBucket (t1 t2 t3 t4 s : ℚ) : Severity :=
  if s < t1 then Severity.SAFE
  else if s < t2 then Severity.LOW
  else if s < t3 then Severity.MEDIUM
  else if s < t4 then Severity.HIGH
  else Severity.CRITICAL

/-- Modelled from the spec: the scorer's full output - a scalar in
[0, 1] together with a severity bucket. -/
def scoreWithSeverity (wIoU D t1 t2 t3 t4 : ℚ) (a b : BoundingBox) :
    ℚ × Severity :=
  let s := geometryScore wIoU D a b
  (s, severityBucket t1 t2 t3 t4 s)

/-! ### Cross-camera fusion state machine and risk accumulator

Modelled from the spec, sections 4.3 and 4.4 (`monitor_contacts.py`
is missing from the available files).  Per tick the fusion stage reads
each camera's close-interval evidence for the pair (absent when that
camera does not currently report the pair close), advances the
`UNSEEN → CANDIDATE → CONFIRMED → IDLE → ARCHIVED` machine, and
accumulates risk while confirmed. -/

/-- Modelled from the spec: a camera's close-evidence interval
`[first_seen, last_seen]` for a pair. -/
structure Interval where
  first_seen : ℚ
  last_seen : ℚ
deriving DecidableEq, Repr

/-- Modelled from the spec: the engine's tunables relevant to fusion,
risk and alerting. -/
structure Config where
  sync_window : ℚ
  idle_timeout : ℚ
  base_rate : ℚ
  event_penalty : ℚ
  min_duration : ℚ
  min_risk : ℚ
  cooldown : ℚ
  require_both_cameras : Bool
deriving DecidableEq, Repr

/-- Modelled from the spec: one fusion tick's input for a pair - the
wall-clock time of the tick, each camera's current close-interval
evidence (none when that camera does not report the pair close), and
the mask modifier supplied by the mask-state collaborator. -/
structure TickInput where
  now : ℚ
  cam1 : Option Interval
  cam2 : Option Interval
  mask_mod : ℚ
deriving DecidableEq, Repr

/-- Modelled from the spec: the per-PairKey fusion phases. -/
inductive Phase where
  | UNSEEN
  | CANDIDATE
  | CONFIRMED
  | IDLE
  | ARCHIVED
deriving DecidableEq, Repr

/-- Modelled from the spec: the fused contact state for one PairKey:
phase, cumulative risk and duration, the time of the last
accumulation tick, episode start, last confirmed time, and the guard
flag that prevents re-application of the event penalty. -/
structure FusedContactState where
  phase : Phase
  cumulative_risk : ℚ
  cumulative_duration : ℚ
  last_update : ℚ
  confirm_since : ℚ
  last_confirmed_time : ℚ
  penalty_applied : Bool
deriving DecidableEq, Repr

/-- Modelled from the spec: a fresh, never-seen fused state. -/
def initState : FusedContactState :=
  { phase := Phase.UNSEEN, cumulative_risk := 0, cumulative_duration := 0,
    last_update := 0, confirm_since := 0, last_confirmed_time := 0,
    penalty_applied := false }

/-- Modelled from the spec: two close intervals are temporally
co-incident when their `[first_seen, last_seen]` ranges intersect
within the synchronization-tolerance window. -/
def rangesSync (i1 i2 : Interval) (window : ℚ) : Bool :=
  decide (i2.first_seen ≤ i1.last_seen + window) &&
    decide (i1.first_seen ≤ i2.last_seen + window)

/-- Does either camera currently report the pair close? -/
def anyEvidence (inp : TickInput) : Bool :=
  inp.cam1.isSome || inp.cam2.isSome

/-- Modelled from the spec: the two-camera confirmation gate - both
cameras' close intervals must be co-incident within the sync window,
unless two-camera agreement is disabled, in which case a single
camera's evidence suffices. -/
def confirmGate (cfg : Config) (inp : TickInput) : Bool :=
  if cfg.require_both_cameras then
    match inp.cam1, inp.cam2 with
    | some i1, some i2 => rangesSync i1 i2 cfg.sync_window
    | _, _ => false
  else anyEvidence inp

/-- Modelled from the spec: the phase transition of one fusion tick.
`UNSEEN/CANDIDATE` promote through the confirmation gate (a tick
whose evidence passes the gate confirms; other evidence makes a
candidate); `CONFIRMED` persists while at least one camera reports
the pair close and otherwise decays to `IDLE`; `IDLE` re-confirms
when evidence resumes and archives after the idle timeout;
`ARCHIVED` is terminal for the episode's state object. -/
def nextPhase (cfg : Config) (s : FusedContactState) (inp : TickInput) :
    Phase :=
  match s.phase with
  | Phase.UNSEEN =>
    if confirmGate cfg inp then Phase.CONFIRMED
    else if anyEvidence inp then Phase.CANDIDATE
    else Phase.UNSEEN
  | Phase.CANDIDATE =>
    if confirmGate cfg inp then Phase.CONFIRMED else Phase.CANDIDATE
  | Phase.CONFIRMED =>
    if anyEvidence inp then Phase.CONFIRMED else Phase.IDLE
  | Phase.IDLE =>
    if anyEvidence inp then Phase.CONFIRMED
    else if cfg.idle_timeout < inp.now - s.last_confirmed_time then
      Phase.ARCHIVED
    else Phase.IDLE
  | Phase.ARCHIVED => Phase.ARCHIVED

/-- Modelled from the spec: an archived contact episode - start time,
end time (the last confirmed tick, not the detection of idleness) and
final cumulative risk, flushed to the persistence collaborator. -/
structure ArchiveRecord where
  start_time : ℚ
  end_time : ℚ
  final_risk : ℚ
deriving DecidableEq, Repr

/-- Modelled from the spec: one full fusion tick for a pair.
Transitions the phase; on a tick that stays `CONFIRMED` the risk
accumulator adds `base_rate * mask_mod * dt` with `dt` the wall-clock
time since the last accumulation tick, and the duration grows by
`dt`; on a newly (re-)confirmed transition the one-shot event penalty
is added unless the guard flag is already set, and the accumulation
clock restarts at the tick's time; on `IDLE → ARCHIVED` the episode
is flushed as a record ending at the last confirmed tick. -/
def fusionTick (cfg : Config) (s : FusedContactState) (inp : TickInput) :
    FusedContactState × Option ArchiveRecord :=
  match nextPhase cfg s inp with
  | Phase.CONFIRMED =>
    if s.phase = Phase.CONFIRMED then
      let dt := inp.now - s.last_update
      ({ s with
          cumulative_risk :=
            s.cumulative_risk + cfg.base_rate * inp.mask_mod * dt,
          cumulative_duration := s.cumulative_duration + dt,
          last_update := inp.now,
          last_confirmed_time := inp.now }, none)
    else
      ({ s with
          phase := Phase.CONFIRMED,
          cumulative_risk := s.cumulative_risk +
            (if s.penalty_applied then 0 else cfg.event_penalty),
          penalty_applied := true,
          last_update := inp.now,
          confirm_since :=
            if s.phase = Phase.IDLE then s.confirm_since else inp.now,
          last_confirmed_time := inp.now }, none)
  | Phase.ARCHIVED =>
    ({ s with phase := Phase.ARCHIVED },
      some { start_time := s.confirm_since,
             end_time := s.last_confirmed_time,
             final_risk := s.cumulative_risk })
  | p => ({ s with phase := p }, none)

/-- Run the fusion machine over a list of tick inputs, collecting the
archive records it flushes. -/
def runTicks (cfg : Config) (s : FusedContactState) :
    List TickInput → FusedContactState × List ArchiveRecord
  | [] => (s, [])
  | inp :: rest =>
    let (s', rec?) := fusionTick cfg s inp
    let (sf, recs) := runTicks cfg s' rest
    (sf, rec?.toList ++ recs)

/-- The total of the per-tick rate terms `base_rate * mask * dt`
accumulated over a list of ticks, with the accumulation clock
starting at `lu`. -/
def rateSum (cfg : Config) (lu : ℚ) : List TickInput → ℚ
  | [] => 0
  | inp :: rest =>
    cfg.base_rate * inp.mask_mod * (inp.now - lu) + rateSum cfg inp.now rest

/-- The total of the per-tick durations over a list of ticks, with the
accumulation clock starting at `lu`. -/
def durSum (lu : ℚ) : List TickInput → ℚ
  | [] => 0
  | inp :: rest => (inp.now - lu) + durSum inp.now rest

/-! ### Alert gate

Modelled from the spec, section 4.5 (`alert_system.py` is missing
from the available files). -/

/-- Modelled from the spec: the alert gate's per-pair cooldown
bookkeeping. -/
structure AlertState where
  last_fired : Option ℚ
deriving DecidableEq, Repr

/-- Modelled from the spec: one alert-gate evaluation.  Fires exactly
when the pair includes a flagged identity, cumulative duration and
risk meet their thresholds, the two-camera requirement is satisfied,
and no alert for the pair fired within the cooldown; on fire the
cooldown clock is stamped with the evaluation time. -/
def alertGate (cfg : Config) (st : AlertState) (flagged : Bool)
    (dur risk : ℚ) (twoCamOk : Bool) (now : ℚ) : Bool × AlertState :=
  let gates := flagged && decide (cfg.min_duration ≤ dur) &&
    decide (cfg.min_risk ≤ risk) &&
    (twoCamOk || !cfg.require_both_cameras)
  let cooldownOk :=
    match st.last_fired with
    | none => true
    | some t => decide (cfg.cooldown ≤ now - t)
  if gates && cooldownOk then (true, { last_fired := some now })
  else (false, st)

/-! ### Derived definitions and concrete sample data used by the
theorems below -/

/-- The server path `startMonitoring` resolves for the selected front
video: `videos.find(v => v.filename === selectedFrontVideo)?.path`,
under JavaScript truthiness. -/
def resolvedFrontPath (st : PageState) : Option String :=
  match st.selectedFrontVideo with
  | none => none
  | some f => truthyPath (st.videos.find? (fun v => v.filename = f))

/-- The server path `startMonitoring` resolves for the selected side
video. -/
def resolvedSidePath (st : PageState) : Option String :=
  match st.selectedSideVideo with
  | none => none
  | some s => truthyPath (st.videos.find? (fun v => v.filename = s))

/-- Number of entries of the fused-state table carrying the given
PairKey. -/
def keyCount {F : Type} (tbl : List ((String × String) × F))
    (k : String × String) : Nat :=
  tbl.countP (fun e => e.1 = k)

/-- A concrete configuration carrying the claims' tunables:
`sync_tolerance_window = 0.5 s`, `idle_timeout = 30 s`,
`min_duration = 10 s`, `min_risk = 5`, `cooldown = 60 s`, two-camera
agreement required, and the README defaults `base_rate = 0.02`,
`event_penalty = 0.05`. -/
def sampleCfg : Config :=
  { sync_window := 1/2, idle_timeout := 30, base_rate := 1/50,
    event_penalty := 1/20, min_duration := 10, min_risk := 5,
    cooldown := 60, require_both_cameras := true }

/-- A tick at time `t` on which both cameras report the pair close
(with co-incident instantaneous evidence), mask modifier neutral. -/
def ev (t : ℚ) : TickInput := ⟨t, some ⟨t, t⟩, some ⟨t, t⟩, 1⟩

/-- A tick at time `t` on which neither camera reports the pair. -/
def quiet (t : ℚ) : TickInput := ⟨t, none, none, 1⟩

/-- Fused state right after confirmation at t = 0 under `sampleCfg`. -/
def c6s1 : FusedContactState :=
  { phase := Phase.CONFIRMED, cumulative_risk := 1/20,
    cumulative_duration := 0, last_update := 0, confirm_since := 0,
    last_confirmed_time := 0, penalty_applied := true }

/-- Fused state after accumulating through t = 10 under `sampleCfg`. -/
def c6s2 : FusedContactState :=
  { phase := Phase.CONFIRMED, cumulative_risk := 1/4,
    cumulative_duration := 10, last_update := 10, confirm_since := 0,
    last_confirmed_time := 10, penalty_applied := true }

/-- Fused state during the short idle excursion. -/
def c6s3 : FusedContactState := { c6s2 with phase := Phase.IDLE }

/-- Fused state right after evidence resumes at t = 13: risk and
duration still at their t = 10 values. -/
def c6s5 : FusedContactState :=
  { phase := Phase.CONFIRMED, cumulative_risk := 1/4,
    cumulative_duration := 10, last_update := 13, confirm_since := 0,
    last_confirmed_time := 13, penalty_applied := true }

/-- Fused state after accumulating through t = 20. -/
def c6s6 : FusedContactState :=
  { phase := Phase.CONFIRMED, cumulative_risk := 39/100,
    cumulative_duration := 17, last_update := 20, confirm_since := 0,
    last_confirmed_time := 20, penalty_applied := true }

/-- Fused state idle again after t = 20. -/
def c6s7 : FusedContactState := { c6s6 with phase := Phase.IDLE }

/-- Fused state once the episode is archived. -/
def c6s8 : FusedContactState := { c6s6 with phase := Phase.ARCHIVED }

/-- A candidate-phase fused state with the penalty guard still
clear. -/
def candState : FusedContactState :=
  { initState with phase := Phase.CANDIDATE }

/-- A concrete monitoring-page state: video mode, a front video
selected whose entry lacks a stored path, no side video selected. -/
def samplePageState : PageState :=
  { inputMode := InputMode.video,
    videos := [{ filename := "front.mp4", path := none,
                 video_type := "front" }],
    selectedFrontVideo := some "front.mp4",
    selectedSideVideo := none,
    frontCamIndex := 0, sideCamIndex := 1,
    session := { isRunning := false, sessionId := none, status := "idle" } }

/-! ## Theorems -/

/-- Claim C10: the permission string `pathogen_management` is absent
from every role's permission list, so `hasPermission` rejects it for
every role (known or not), and the Add-Pathogen button and the
pathogen-types tab of MDR Management are rendered for no user. -/
theorem pathogen_management_unreachable (role : String) :
    hasPermission role "pathogen_management" = false ∧
    showAddPathogenButton role = false ∧
    showPathogensTab role = false := by
  have h : hasPermission role "pathogen_management" = false := by
    unfold hasPermission ROLE_PERMISSIONS
    split_ifs <;> decide
  exact ⟨h, h, h⟩

/-- Claim C9: in video mode, whenever either video selection is
missing or fails to resolve to a stored server path,
`startMonitoring` reports an error and returns before calling the
monitoring start API, leaving session state unchanged; and
`canStart` is exactly the conjunction of both selections being
present. -/
theorem startMonitoring_video_guard (st : PageState)
    (hmode : st.inputMode = InputMode.video)
    (hmiss : resolvedFrontPath st = none ∨ resolvedSidePath st = none) :
    ((startMonitoring st).1 = StartOutcome.errorNoSelection ∨
      (startMonitoring st).1 = StartOutcome.errorNoPath) ∧
    (startMonitoring st).2 = st.session ∧
    canStart st = (st.selectedFrontVideo.isSome &&
      st.selectedSideVideo.isSome) := by
  have hcs : canStart st = (st.selectedFrontVideo.isSome &&
      st.selectedSideVideo.isSome) := by
    unfold canStart
    rw [hmode]
  refine ⟨?_, ?_, hcs⟩ <;>
  · cases hf : st.selectedFrontVideo with
    | none => simp [startMonitoring, hmode, hf]
    | some f =>
      cases hs : st.selectedSideVideo with
      | none => simp [startMonitoring, hmode, hf, hs]
      | some s =>
        unfold resolvedFrontPath resolvedSidePath at hmiss
        simp only [hf, hs] at hmiss
        cases hfp : truthyPath (st.videos.find? (fun v => v.filename = f)) with
        | none => simp [startMonitoring, hmode, hf, hs, hfp]
        | some fp =>
          cases hsp : truthyPath (st.videos.find? (fun v => v.filename = s)) with
          | none => simp [startMonitoring, hmode, hf, hs, hfp, hsp]
          | some sp =>
            rw [hfp, hsp] at hmiss
            rcases hmiss with h | h <;> simp at h

/-- Witness for C9 at a concrete page state: video mode with a front
video selected whose entry has no stored path and no side video
selected. -/
theorem startMonitoring_video_guard_witness :
    ((startMonitoring samplePageState).1 = StartOutcome.errorNoSelection ∨
      (startMonitoring samplePageState).1 = StartOutcome.errorNoPath) ∧
    (startMonitoring samplePageState).2 = samplePageState.session ∧
    canStart samplePageState = (samplePageState.selectedFrontVideo.isSome &&
      samplePageState.selectedSideVideo.isSome) :=
  startMonitoring_video_guard samplePageState rfl
    (Or.inr (by simp [resolvedSidePath, samplePageState]))

/-- Claim C4: with a 0.5 s sync-tolerance window, camera-1 close
evidence spanning [0 s, 2 s] and camera-2 evidence spanning
[2.3 s, 4 s] confirm the pair (ranges within tolerance), while
camera-2 evidence spanning [3 s, 4 s] does not confirm it. -/
theorem two_camera_gating :
    (fusionTick sampleCfg initState
      ⟨4, some ⟨0, 2⟩, some ⟨23/10, 4⟩, 1⟩).1.phase = Phase.CONFIRMED ∧
    (fusionTick sampleCfg initState
      ⟨4, some ⟨0, 2⟩, some ⟨3, 4⟩, 1⟩).1.phase ≠ Phase.CONFIRMED := by
  constructor
  · norm_num [fusionTick, nextPhase, confirmGate, rangesSync, anyEvidence,
      initState, sampleCfg]
    decide
  · norm_num [fusionTick, nextPhase, confirmGate, rangesSync, anyEvidence,
      initState, sampleCfg]
    decide

/-- Claim C5: with `min_duration = 10 s`, `min_risk = 5` and
`cooldown = 60 s`, an alert firing at t = 10 s suppresses an
identical gating condition at t = 30 s (20 s into the cooldown) but
fires again at t = 75 s, the cooldown having elapsed with the gating
conditions still holding. -/
theorem cooldown_suppression :
    alertGate sampleCfg { last_fired := none } true 10 5 true 10
      = (true, { last_fired := some 10 }) ∧
    alertGate sampleCfg { last_fired := some 10 } true 30 6 true 30
      = (false, { last_fired := some 10 }) ∧
    alertGate sampleCfg { last_fired := some 10 } true 75 8 true 75
      = (true, { last_fired := some 75 }) := by
  refine ⟨?_, ?_, ?_⟩ <;> norm_num [alertGate, sampleCfg]

/-- Evaluation of the confirming tick at t = 0 of the idle-continuity
scenario. -/
theorem c6step1 : fusionTick sampleCfg initState (ev 0) = (c6s1, none) := by
  norm_num [fusionTick, nextPhase, confirmGate, rangesSync, anyEvidence,
    initState, sampleCfg, ev, c6s1]
  decide

/-- Evaluation of the accumulation tick at t = 10. -/
theorem c6step2 : fusionTick sampleCfg c6s1 (ev 10) = (c6s2, none) := by
  norm_num [fusionTick, nextPhase, confirmGate, rangesSync, anyEvidence,
    sampleCfg, ev, c6s1, c6s2]

/-- Evaluation of the first quiet tick at t = 11: the pair idles. -/
theorem c6step3 : fusionTick sampleCfg c6s2 (quiet 11) = (c6s3, none) := by
  norm_num [fusionTick, nextPhase, confirmGate, rangesSync, anyEvidence,
    sampleCfg, quiet, c6s2, c6s3]

/-- Evaluation of the quiet tick at t = 13: three idle seconds are
below the 30 s idle timeout, so the state stays idle, unarchived. -/
theorem c6step4 : fusionTick sampleCfg c6s3 (quiet 13) = (c6s3, none) := by
  norm_num [fusionTick, nextPhase, confirmGate, rangesSync, anyEvidence,
    sampleCfg, quiet, c6s2, c6s3]

/-- Evaluation of the resumption tick at t = 13: the episode
re-confirms with risk and duration untouched. -/
theorem c6step5 : fusionTick sampleCfg c6s3 (ev 13) = (c6s5, none) := by
  norm_num [fusionTick, nextPhase, confirmGate, rangesSync, anyEvidence,
    sampleCfg, ev, c6s2, c6s3, c6s5]
  decide

/-- Evaluation of the accumulation tick at t = 20. -/
theorem c6step6 : fusionTick sampleCfg c6s5 (ev 20) = (c6s6, none) := by
  norm_num [fusionTick, nextPhase, confirmGate, rangesSync, anyEvidence,
    sampleCfg, ev, c6s5, c6s6]

/-- Evaluation of the quiet tick at t = 21: the pair idles again. -/
theorem c6step7 : fusionTick sampleCfg c6s6 (quiet 21) = (c6s7, none) := by
  norm_num [fusionTick, nextPhase, confirmGate, rangesSync, anyEvidence,
    sampleCfg, quiet, c6s6, c6s7]

/-- Evaluation of the quiet tick at t = 51: 31 idle seconds exceed the
timeout and the episode archives, ending at its last confirmed tick. -/
theorem c6step8 : fusionTick sampleCfg c6s7 (quiet 51) =
    (c6s8, some { start_time := 0, end_time := 20, final_risk := 39/100 }) := by
  norm_num [fusionTick, nextPhase, confirmGate, rangesSync, anyEvidence,
    sampleCfg, quiet, c6s6, c6s7, c6s8]

/-- Claim C6: a pair confirmed from t = 0 to 10 s that goes idle for
3 s (below the 30 s idle timeout) resumes with its cumulative risk
and duration exactly at their t = 10 values (no reset), and the whole
episode later archives as one contiguous record covering t = 0 to
20 s, not two. -/
theorem idle_continuity :
    (runTicks sampleCfg initState [ev 0, ev 10]).1.cumulative_risk = 1/4 ∧
    (runTicks sampleCfg initState [ev 0, ev 10]).1.cumulative_duration = 10 ∧
    (runTicks sampleCfg initState
        [ev 0, ev 10, quiet 11, quiet 13, ev 13]).1.cumulative_risk = 1/4 ∧
    (runTicks sampleCfg initState
        [ev 0, ev 10, quiet 11, quiet 13, ev 13]).1.cumulative_duration = 10 ∧
    (runTicks sampleCfg initState
        [ev 0, ev 10, quiet 11, quiet 13, ev 13]).1.phase = Phase.CONFIRMED ∧
    (runTicks sampleCfg initState
        [ev 0, ev 10, quiet 11, quiet 13, ev 13, ev 20, quiet 21, quiet 51]).2
      = [{ start_time := 0, end_time := 20, final_risk := 39/100 }] := by
  simp only [runTicks, c6step1, c6step2, c6step3, c6step4, c6step5, c6step6,
    c6step7, c6step8, Option.toList, List.nil_append, List.cons_append,
    List.append_nil]
  norm_num [c6s2, c6s5]

/-- PairKey construction is order-insensitive. -/
theorem pairKey_comm (a b : String) : pairKey a b = pairKey b a := by
  unfold pairKey
  rcases le_total a b with h | h
  · by_cases h2 : b ≤ a
    · have hab : a = b := le_antisymm h h2
      subst hab; simp
    · rw [if_pos h, if_neg h2]
  · by_cases h2 : a ≤ b
    · have hab : a = b := le_antisymm h2 h
      subst hab; simp
    · rw [if_neg h2, if_pos h]

/-- After an upsert, the table holds an entry for the key. -/
theorem upsertPair_any {F : Type} (tbl : List ((String × String) × F))
    (k : String × String) (init : F) :
    (upsertPair tbl k init).any (fun e => e.1 = k) = true := by
  unfold upsertPair
  split_ifs with h
  · exact h
  · simp

/-- Upserting a key already present leaves the table unchanged. -/
theorem upsertPair_idem {F : Type} (tbl : List ((String × String) × F))
    (k : String × String) (init : F)
    (h : tbl.any (fun e => e.1 = k) = true) :
    upsertPair tbl k init = tbl := by
  unfold upsertPair
  exact if_pos h

/-- An upsert into a well-formed table leaves exactly one entry for
the key. -/
theorem keyCount_upsert {F : Type} (tbl : List ((String × String) × F))
    (k : String × String) (init : F) (hwf : keyCount tbl k ≤ 1) :
    keyCount (upsertPair tbl k init) k = 1 := by
  unfold keyCount upsertPair at *
  split_ifs with h
  · have h1 : 0 < tbl.countP (fun e => decide (e.1 = k)) := by
      rcases List.any_eq_true.mp h with ⟨x, hx, hpx⟩
      exact List.countP_pos_iff.mpr ⟨x, hx, hpx⟩
    omega
  · have h0 : tbl.countP (fun e => decide (e.1 = k)) = 0 := by
      rw [List.countP_eq_zero]
      intro x hx hpx
      exact h (List.any_eq_true.mpr ⟨x, hx, hpx⟩)
    rw [List.countP_cons]
    simp [h0]

/-- Claim C7: `fuse(A, B)` and `fuse(B, A)` reference the identical
fused state object - the PairKey is canonically ordered (first
component ≤ second under the total order on labels), fusing in the
opposite order on top of an existing table changes nothing
(idempotent upsert, no double-create), a well-formed table ends up
with exactly one entry for the key, and lookups through either order
agree. -/
theorem pairKey_canonicalization (a b : String)
    (tbl : List ((String × String) × FusedContactState))
    (hwf : keyCount tbl (pairKey a b) ≤ 1) :
    pairKey a b = pairKey b a ∧
    (pairKey a b).1 ≤ (pairKey a b).2 ∧
    fuse (fuse tbl a b initState) b a initState = fuse tbl a b initState ∧
    keyCount (fuse tbl a b initState) (pairKey a b) = 1 ∧
    fusedLookup (fuse tbl a b initState) a b
      = fusedLookup (fuse tbl a b initState) b a := by
  refine ⟨pairKey_comm a b, ?_, ?_, ?_, ?_⟩
  · unfold pairKey
    split_ifs with h
    · exact h
    · exact le_of_not_le h
  · show upsertPair (upsertPair tbl (pairKey a b) initState)
      (pairKey b a) initState = upsertPair tbl (pairKey a b) initState
    rw [← pairKey_comm a b]
    exact upsertPair_idem _ _ _ (upsertPair_any tbl (pairKey a b) initState)
  · exact keyCount_upsert tbl (pairKey a b) initState hwf
  · unfold fusedLookup
    rw [← pairKey_comm a b]

/-- Witness for C7 at concrete labels and the empty table. -/
theorem pairKey_canonicalization_witness :
    pairKey "B" "A" = pairKey "A" "B" ∧
    (pairKey "B" "A").1 ≤ (pairKey "B" "A").2 ∧
    fuse (fuse [] "B" "A" initState) "A" "B" initState
      = fuse [] "B" "A" initState ∧
    keyCount (fuse [] "B" "A" initState) (pairKey "B" "A") = 1 ∧
    fusedLookup (fuse [] "B" "A" initState) "B" "A"
      = fusedLookup (fuse [] "B" "A" initState) "A" "B" :=
  pairKey_canonicalization "B" "A" [] (by simp [keyCount])

/-- Unfolding lemma for `runTicks` on a cons. -/
theorem runTicks_cons (cfg : Config) (s : FusedContactState)
    (inp : TickInput) (rest : List TickInput) :
    runTicks cfg s (inp :: rest)
      = ((runTicks cfg (fusionTick cfg s inp).1 rest).1,
         (fusionTick cfg s inp).2.toList
           ++ (runTicks cfg (fusionTick cfg s inp).1 rest).2) := rfl

/-- A tick that passes the confirmation gate carries evidence from at
least one camera. -/
theorem confirmGate_any (cfg : Config) (inp : TickInput)
    (h : confirmGate cfg inp = true) : anyEvidence inp = true := by
  unfold confirmGate at h
  by_cases hr : cfg.require_both_cameras
  · rw [if_pos hr] at h
    cases h1 : inp.cam1 with
    | none => rw [h1] at h; simp at h
    | some i1 =>
      cases h2 : inp.cam2 with
      | none => rw [h1, h2] at h; simp at h
      | some i2 => simp [anyEvidence, h1]
  · rw [if_neg hr] at h
    exact h

/-- A single accumulation tick on an already-confirmed state. -/
theorem fusionTick_confirmed (cfg : Config) (s : FusedContactState)
    (inp : TickInput) (hc : s.phase = Phase.CONFIRMED)
    (he : anyEvidence inp = true) :
    fusionTick cfg s inp = ({ s with
      cumulative_risk := s.cumulative_risk
        + cfg.base_rate * inp.mask_mod * (inp.now - s.last_update),
      cumulative_duration := s.cumulative_duration + (inp.now - s.last_update),
      last_update := inp.now, last_confirmed_time := inp.now }, none) := by
  have hnp : nextPhase cfg s inp = Phase.CONFIRMED := by
    simp [nextPhase, hc, he]
  unfold fusionTick
  rw [hnp]
  simp [hc]

/-- Across any run of consecutive confirmed ticks the machine stays
confirmed, accumulates exactly the rate terms into the risk and the
elapsed times into the duration, keeps the penalty guard, and flushes
nothing. -/
theorem runTicks_confirmed (cfg : Config) (L : List TickInput) :
    ∀ s : FusedContactState, s.phase = Phase.CONFIRMED →
      (∀ i ∈ L, anyEvidence i = true) →
      (runTicks cfg s L).1.phase = Phase.CONFIRMED ∧
      (runTicks cfg s L).1.cumulative_risk
        = s.cumulative_risk + rateSum cfg s.last_update L ∧
      (runTicks cfg s L).1.cumulative_duration
        = s.cumulative_duration + durSum s.last_update L ∧
      (runTicks cfg s L).1.penalty_applied = s.penalty_applied ∧
      (runTicks cfg s L).2 = [] := by
  induction L with
  | nil =>
    intro s hc _
    simp [runTicks, rateSum, durSum, hc]
  | cons inp rest ih =>
    intro s hc hev
    have he : anyEvidence inp = true := hev inp (List.mem_cons_self _ _)
    have hstep := fusionTick_confirmed cfg s inp hc he
    rw [runTicks_cons, hstep]
    simp only []
    obtain ⟨h1, h2, h3, h4, h5⟩ :=
      ih { s with
        cumulative_risk := s.cumulative_risk
          + cfg.base_rate * inp.mask_mod * (inp.now - s.last_update),
        cumulative_duration := s.cumulative_duration + (inp.now - s.last_update),
        last_update := inp.now, last_confirmed_time := inp.now }
        hc (fun i hi => hev i (List.mem_cons_of_mem _ hi))
    refine ⟨h1, ?_, ?_, h4, by simp [h5]⟩
    · rw [h2]
      simp only [rateSum]
      ring
    · rw [h3]
      simp only [durSum]
      ring

/-- Claim C1: on a tick where the fused state ends up confirmed, the
risk accumulator performs exactly the spec's update: a continuing
confirmed tick adds `BaseRate * MaskModifier * dt` with `dt` the
wall-clock time since the last accumulation tick (whose timestamp the
machine then refreshes - time-based, not frame-count-based), while a
newly (re-)confirming tick adds the one-shot event penalty. -/
theorem risk_accumulation_formula (cfg : Config) (s : FusedContactState)
    (inp : TickInput) (hconf : nextPhase cfg s inp = Phase.CONFIRMED) :
    (fusionTick cfg s inp).1.cumulative_risk
      = s.cumulative_risk +
        (if s.phase = Phase.CONFIRMED then
          cfg.base_rate * inp.mask_mod * (inp.now - s.last_update)
        else if s.penalty_applied then 0 else cfg.event_penalty) ∧
    (fusionTick cfg s inp).1.last_update = inp.now ∧
    (fusionTick cfg s inp).1.cumulative_duration
      = s.cumulative_duration +
        (if s.phase = Phase.CONFIRMED then inp.now - s.last_update else 0) ∧
    (fusionTick cfg s inp).1.phase = Phase.CONFIRMED := by
  unfold fusionTick
  rw [hconf]
  by_cases h : s.phase = Phase.CONFIRMED <;> simp [h]

/-- Witness for C1 at a confirmed state and an evidence-bearing tick. -/
theorem risk_accumulation_formula_witness :
    (fusionTick sampleCfg c6s1 (ev 1)).1.cumulative_risk
      = c6s1.cumulative_risk +
        (if c6s1.phase = Phase.CONFIRMED then
          sampleCfg.base_rate * (ev 1).mask_mod * ((ev 1).now - c6s1.last_update)
        else if c6s1.penalty_applied then 0 else sampleCfg.event_penalty) ∧
    (fusionTick sampleCfg c6s1 (ev 1)).1.last_update = (ev 1).now ∧
    (fusionTick sampleCfg c6s1 (ev 1)).1.cumulative_duration
      = c6s1.cumulative_duration +
        (if c6s1.phase = Phase.CONFIRMED then (ev 1).now - c6s1.last_update
         else 0) ∧
    (fusionTick sampleCfg c6s1 (ev 1)).1.phase = Phase.CONFIRMED :=
  risk_accumulation_formula sampleCfg c6s1 (ev 1)
    (by simp [nextPhase, c6s1, anyEvidence, ev])

/-- Claim C2: starting from an unconfirmed state with the guard flag
clear, a confirming tick adds the event penalty exactly once and sets
the guard; across any following consecutive confirmed ticks the
cumulative risk grows by the rate terms alone, so the penalty
contributes exactly once to the whole window. -/
theorem event_penalty_once (cfg : Config) (s : FusedContactState)
    (inp0 : TickInput) (L : List TickInput)
    (hphase : s.phase = Phase.CANDIDATE ∨ s.phase = Phase.IDLE)
    (hg : s.penalty_applied = false)
    (hconf : confirmGate cfg inp0 = true)
    (hev : ∀ i ∈ L, anyEvidence i = true) :
    (fusionTick cfg s inp0).1.cumulative_risk
      = s.cumulative_risk + cfg.event_penalty ∧
    (fusionTick cfg s inp0).1.penalty_applied = true ∧
    (runTicks cfg (fusionTick cfg s inp0).1 L).1.cumulative_risk
      = s.cumulative_risk + cfg.event_penalty + rateSum cfg inp0.now L ∧
    (runTicks cfg (fusionTick cfg s inp0).1 L).1.phase
      = Phase.CONFIRMED := by
  have hae : anyEvidence inp0 = true := confirmGate_any cfg inp0 hconf
  have hnp : nextPhase cfg s inp0 = Phase.CONFIRMED := by
    rcases hphase with h | h <;> simp [nextPhase, h, hconf, hae]
  have hne : s.phase ≠ Phase.CONFIRMED := by
    rcases hphase with h | h <;> simp [h]
  have hstep : (fusionTick cfg s inp0).1 = { s with
      phase := Phase.CONFIRMED,
      cumulative_risk := s.cumulative_risk + cfg.event_penalty,
      penalty_applied := true, last_update := inp0.now,
      confirm_since :=
        if s.phase = Phase.IDLE then s.confirm_since else inp0.now,
      last_confirmed_time := inp0.now } := by
    unfold fusionTick
    rw [hnp]
    simp [hne, hg]
  obtain ⟨h1, h2, _, _, _⟩ :=
    runTicks_confirmed cfg L (fusionTick cfg s inp0).1 (by rw [hstep]) hev
  refine ⟨by rw [hstep], by rw [hstep], ?_, h1⟩
  rw [h2, hstep]

/-- Witness for C2: a candidate pair confirms at t = 0 and stays
confirmed through t = 1. -/
theorem event_penalty_once_witness :
    (fusionTick sampleCfg candState (ev 0)).1.cumulative_risk
      = candState.cumulative_risk + sampleCfg.event_penalty ∧
    (fusionTick sampleCfg candState (ev 0)).1.penalty_applied = true ∧
    (runTicks sampleCfg (fusionTick sampleCfg candState (ev 0)).1
        [ev 1]).1.cumulative_risk
      = candState.cumulative_risk + sampleCfg.event_penalty
        + rateSum sampleCfg (ev 0).now [ev 1] ∧
    (runTicks sampleCfg (fusionTick sampleCfg candState (ev 0)).1
        [ev 1]).1.phase = Phase.CONFIRMED :=
  event_penalty_once sampleCfg candState (ev 0) [ev 1]
    (Or.inl rfl) rfl
    (by norm_num [confirmGate, rangesSync, sampleCfg, ev])
    (by
      intro i hi
      rw [List.mem_singleton] at hi
      subst hi
      rfl)

/-- A chain of nondecreasing times is preserved under lowering its
head bound. -/
theorem chain_le_head {a b : ℚ} {l : List ℚ} (hab : a ≤ b)
    (h : List.Chain (· ≤ ·) b l) : List.Chain (· ≤ ·) a l := by
  cases l with
  | nil => exact List.Chain.nil
  | cons c cs =>
    rcases List.chain_cons.mp h with ⟨hbc, hcs⟩
    exact List.chain_cons.mpr ⟨le_trans hab hbc, hcs⟩

/-- One fusion tick never decreases the cumulative risk (under
nonnegative tunables, mask modifier and elapsed time), and it either
keeps the accumulation timestamp or advances it to the tick's time. -/
theorem fusionTick_risk_mono (cfg : Config) (s : FusedContactState)
    (inp : TickInput) (hbr : 0 ≤ cfg.base_rate)
    (hpen : 0 ≤ cfg.event_penalty) (hm : 0 ≤ inp.mask_mod)
    (ht : s.last_update ≤ inp.now) :
    s.cumulative_risk ≤ (fusionTick cfg s inp).1.cumulative_risk ∧
    ((fusionTick cfg s inp).1.last_update = s.last_update ∨
      (fusionTick cfg s inp).1.last_update = inp.now) := by
  unfold fusionTick
  split
  · by_cases hc : s.phase = Phase.CONFIRMED
    · simp only [if_pos hc]
      refine ⟨le_add_of_nonneg_right ?_, Or.inr (by simp)⟩
      exact mul_nonneg (mul_nonneg hbr hm) (sub_nonneg.mpr ht)
    · simp only [if_neg hc]
      refine ⟨le_add_of_nonneg_right ?_, Or.inr (by simp)⟩
      split_ifs
      · exact le_refl 0
      · exact hpen
  all_goals exact ⟨le_refl _, Or.inl rfl⟩

/-- Claim C3: across any sequence of ticks with nondecreasing
wall-clock times (each elapsed increment nonnegative) and nonnegative
tunables and mask modifiers, the cumulative risk never decreases. -/
theorem risk_monotonic (cfg : Config) (s : FusedContactState)
    (L : List TickInput) (hbr : 0 ≤ cfg.base_rate)
    (hpen : 0 ≤ cfg.event_penalty)
    (hmask : ∀ i ∈ L, 0 ≤ i.mask_mod)
    (htime : List.Chain (· ≤ ·) s.last_update (L.map TickInput.now)) :
    s.cumulative_risk ≤ (runTicks cfg s L).1.cumulative_risk := by
  revert hmask htime
  induction L generalizing s with
  | nil =>
    intro _ _
    simp [runTicks]
  | cons inp rest ih =>
    intro hmask htime
    rw [List.map_cons] at htime
    rcases List.chain_cons.mp htime with ⟨hlu, hchain⟩
    have hm : 0 ≤ inp.mask_mod := hmask inp (List.mem_cons_self _ _)
    obtain ⟨hrisk, hlu'⟩ := fusionTick_risk_mono cfg s inp hbr hpen hm hlu
    rw [runTicks_cons]
    refine le_trans hrisk
      (ih _ (fun i hi => hmask i (List.mem_cons_of_mem _ hi)) ?_)
    rcases hlu' with h | h <;> rw [h]
    · exact chain_le_head hlu hchain
    · exact hchain

/-- Witness for C3 on a concrete two-tick run. -/
theorem risk_monotonic_witness :
    initState.cumulative_risk
      ≤ (runTicks sampleCfg initState [ev 0, ev 1]).1.cumulative_risk :=
  risk_monotonic sampleCfg initState [ev 0, ev 1]
    (by norm_num [sampleCfg]) (by norm_num [sampleCfg])
    (by
      intro i hi
      simp only [List.mem_cons, List.not_mem_nil, or_false] at hi
      rcases hi with h | h <;> subst h <;> norm_num [ev])
    (by simp [List.chain_cons, initState, ev])

/-- A non-degenerate box has positive width and height. -/
theorem not_degenerate_pos {a : BoundingBox} (h : degenerate a = false) :
    0 < a.w ∧ 0 < a.h := by
  unfold degenerate at h
  simp only [Bool.or_eq_false_iff, decide_eq_false_iff_not, not_le] at h
  exact h

/-- The intersection width is nonnegative. -/
theorem interW_nonneg (a b : BoundingBox) : 0 ≤ interW a b :=
  le_max_left 0 _

/-- The intersection height is nonnegative. -/
theorem interH_nonneg (a b : BoundingBox) : 0 ≤ interH a b :=
  le_max_left 0 _

/-- The intersection width is at most the first box's width. -/
theorem interW_le_left (a b : BoundingBox) (hw : 0 ≤ a.w) :
    interW a b ≤ a.w := by
  unfold interW
  apply max_le hw
  have h1 : min (a.x + a.w) (b.x + b.w) ≤ a.x + a.w := min_le_left _ _
  have h2 : a.x ≤ max a.x b.x := le_max_left _ _
  linarith

/-- The intersection width is at most the second box's width. -/
theorem interW_le_right (a b : BoundingBox) (hw : 0 ≤ b.w) :
    interW a b ≤ b.w := by
  unfold interW
  apply max_le hw
  have h1 : min (a.x + a.w) (b.x + b.w) ≤ b.x + b.w := min_le_right _ _
  have h2 : b.x ≤ max a.x b.x := le_max_right _ _
  linarith

/-- The intersection height is at most the first box's height. -/
theorem interH_le_left (a b : BoundingBox) (hh : 0 ≤ a.h) :
    interH a b ≤ a.h := by
  unfold interH
  apply max_le hh
  have h1 : min (a.y + a.h) (b.y + b.h) ≤ a.y + a.h := min_le_left _ _
  have h2 : a.y ≤ max a.y b.y := le_max_left _ _
  linarith

/-- The intersection height is at most the second box's height. -/
theorem interH_le_right (a b : BoundingBox) (hh : 0 ≤ b.h) :
    interH a b ≤ b.h := by
  unfold interH
  apply max_le hh
  have h1 : min (a.y + a.h) (b.y + b.h) ≤ b.y + b.h := min_le_right _ _
  have h2 : b.y ≤ max a.y b.y := le_max_right _ _
  linarith

/-- The intersection area is nonnegative. -/
theorem interArea_nonneg (a b : BoundingBox) : 0 ≤ interArea a b :=
  mul_nonneg (interW_nonneg a b) (interH_nonneg a b)

/-- The intersection area is at most the first box's area. -/
theorem interArea_le_left (a b : BoundingBox) (hw : 0 ≤ a.w)
    (hh : 0 ≤ a.h) : interArea a b ≤ area a := by
  unfold interArea area
  exact mul_le_mul (interW_le_left a b hw) (interH_le_left a b hh)
    (interH_nonneg a b) hw

/-- The intersection area is at most the second box's area. -/
theorem interArea_le_right (a b : BoundingBox) (hw : 0 ≤ b.w)
    (hh : 0 ≤ b.h) : interArea a b ≤ area b := by
  unfold interArea area
  exact mul_le_mul (interW_le_right a b hw) (interH_le_right a b hh)
    (interH_nonneg a b) hw

/-- IoU of two well-formed boxes lies in [0, 1]. -/
theorem iou_bounds (a b : BoundingBox) (ha : degenerate a = false)
    (hb : degenerate b = false) : 0 ≤ iou a b ∧ iou a b ≤ 1 := by
  obtain ⟨haw, hah⟩ := not_degenerate_pos ha
  obtain ⟨hbw, hbh⟩ := not_degenerate_pos hb
  have hIA : 0 ≤ interArea a b := interArea_nonneg a b
  have hIa : interArea a b ≤ area a := interArea_le_left a b haw.le hah.le
  have hIb : interArea a b ≤ area b := interArea_le_right a b hbw.le hbh.le
  unfold iou
  split_ifs with h
  · exact ⟨le_refl 0, zero_le_one⟩
  · push_neg at h
    constructor
    · exact div_nonneg hIA h.le
    · rw [div_le_one h]
      unfold unionArea
      linarith

/-- The normalized inverse center distance lies in [0, 1]. -/
theorem proximity_bounds (D : ℚ) (a b : BoundingBox) :
    0 ≤ proximity D a b ∧ proximity D a b ≤ 1 := by
  refine ⟨le_max_left 0 _, max_le zero_le_one ?_⟩
  have h2 : 0 ≤ centerDist2 a b := by
    unfold centerDist2
    positivity
  have h3 : 0 ≤ centerDist2 a b / (D * D) :=
    div_nonneg h2 (mul_self_nonneg D)
  linarith

/-- Claim C8: the geometry scorer is a pure total function whose
scalar output always lies in [0, 1] for any convex blend weight, a
zero-width or zero-height (zero-area) box always scores 0, and the
paired severity output carries the scalar unchanged alongside a
bucket of the ordered severity type. -/
theorem geometry_scorer_total (wIoU D : ℚ) (a b : BoundingBox)
    (hw0 : 0 ≤ wIoU) (hw1 : wIoU ≤ 1) :
    0 ≤ geometryScore wIoU D a b ∧ geometryScore wIoU D a b ≤ 1 ∧
    geometryScore wIoU D { a with w := 0 } b = 0 ∧
    geometryScore wIoU D a { b with h := 0 } = 0 ∧
    (scoreWithSeverity wIoU D (1/5) (2/5) (3/5) (4/5) a b).1
      = geometryScore wIoU D a b := by
  have hz1 : geometryScore wIoU D { a with w := 0 } b = 0 := by
    simp [geometryScore, degenerate]
  have hz2 : geometryScore wIoU D a { b with h := 0 } = 0 := by
    simp [geometryScore, degenerate]
  refine ⟨?_, ?_, hz1, hz2, rfl⟩ <;>
  · unfold geometryScore
    split_ifs with hd
    · norm_num
    · simp only [Bool.or_eq_true, not_or] at hd
      obtain ⟨ha, hb⟩ := hd
      rw [Bool.not_eq_true] at ha hb
      obtain ⟨hi0, hi1⟩ := iou_bounds a b ha hb
      obtain ⟨hp0, hp1⟩ := proximity_bounds D a b
      nlinarith

/-- Witness for C8 at concrete boxes and blend weight. -/
theorem geometry_scorer_total_witness :
    0 ≤ geometryScore (1/2) 1 ⟨0, 0, 1, 1⟩ ⟨1/2, 0, 1, 1⟩ ∧
    geometryScore (1/2) 1 ⟨0, 0, 1, 1⟩ ⟨1/2, 0, 1, 1⟩ ≤ 1 ∧
    geometryScore (1/2) 1 { BoundingBox.mk 0 0 1 1 with w := 0 }
      ⟨1/2, 0, 1, 1⟩ = 0 ∧
    geometryScore (1/2) 1 ⟨0, 0, 1, 1⟩
      { BoundingBox.mk (1/2) 0 1 1 with h := 0 } = 0 ∧
    (scoreWithSeverity (1/2) 1 (1/5) (2/5) (3/5) (4/5) ⟨0, 0, 1, 1⟩
      ⟨1/2, 0, 1, 1⟩).1 = geometryScore (1/2) 1 ⟨0, 0, 1, 1⟩ ⟨1/2, 0, 1, 1⟩ :=
  geometry_scorer_total (1/2) 1 ⟨0, 0, 1, 1⟩ ⟨1/2, 0, 1, 1⟩
    (by norm_num) (by norm_num)

end NeuraX
